import Mathlib

/-!
Verification of the opencc-rust-windows wrapper (`src/lib.rs`) against its
specification.  The native OpenCC C library is modelled as an oracle
(`Native`): an arbitrary assignment of results to the foreign calls
`opencc_open`, `opencc_convert_utf8`, `opencc_convert_utf8_to_buffer` and
`opencc_error`.  Rust byte strings are modelled as `List Nat` of byte
values; decoded Rust `String`s are modelled as lists of Unicode scalar
values.  All wrapper functions are embedded as pure Lean functions over
this oracle, following the Rust control flow line by line.
-/

namespace OpenCCRust

/-- Byte sequence of an ASCII/Unicode Lean string literal, used for the
fixed fallback diagnostics in the Rust source. -/
def strCodes (s : String) : List Nat :=
  s.data.map Char.toNat

/-- Reading a C string (`CStr::from_ptr`): the bytes up to the first NUL. -/
def cstrBytes (bs : List Nat) : List Nat :=
  bs.takeWhile (fun b => b != 0)

/-- UTF-8 continuation byte test (`0x80..=0xBF`). -/
def isCont (b : Nat) : Bool :=
  0x80 ≤ b && b ≤ 0xBF

/-- Allowed second byte of a three-byte UTF-8 sequence, per the
table used by Rust's `core::str` validation (rejects overlong forms and
surrogate code points). -/
def utf8Valid3Second (b0 b1 : Nat) : Bool :=
  if b0 = 0xE0 then 0xA0 ≤ b1 && b1 ≤ 0xBF
  else if b0 = 0xED then 0x80 ≤ b1 && b1 ≤ 0x9F
  else isCont b1

/-- Allowed second byte of a four-byte UTF-8 sequence, per the table used
by Rust's `core::str` validation (rejects overlong forms and code points
above `U+10FFFF`). -/
def utf8Valid4Second (b0 b1 : Nat) : Bool :=
  if b0 = 0xF0 then 0x90 ≤ b1 && b1 ≤ 0xBF
  else if b0 = 0xF4 then 0x80 ≤ b1 && b1 ≤ 0x8F
  else isCont b1

/-- Decode one UTF-8 sequence starting at byte `b0` with remaining input
`rest`.  Returns `(some c, k)` when a scalar value `c` was decoded
consuming `k` bytes of `rest` beyond `b0`, and `(none, k)` on a malformed
sequence, where `k + 1` is the length of the maximal valid prefix that an
"unexpected byte" error consumes (Rust's `Utf8Error::error_len`, also the
substitution unit of `String::from_utf8_lossy`). -/
def utf8Step1 (b0 : Nat) (rest : List Nat) : Option Nat × Nat :=
  if b0 < 0x80 then (some b0, 0)
  else if 0xC2 ≤ b0 && b0 ≤ 0xDF then
    match rest with
    | b1 :: _ =>
      if isCont b1 then (some ((b0 - 0xC0) * 0x40 + (b1 - 0x80)), 1)
      else (none, 0)
    | [] => (none, 0)
  else if 0xE0 ≤ b0 && b0 ≤ 0xEF then
    match rest with
    | b1 :: rest1 =>
      if utf8Valid3Second b0 b1 then
        match rest1 with
        | b2 :: _ =>
          if isCont b2 then
            (some ((b0 - 0xE0) * 0x1000 + (b1 - 0x80) * 0x40 + (b2 - 0x80)), 2)
          else (none, 1)
        | [] => (none, 1)
      else (none, 0)
    | [] => (none, 0)
  else if 0xF0 ≤ b0 && b0 ≤ 0xF4 then
    match rest with
    | b1 :: rest1 =>
      if utf8Valid4Second b0 b1 then
        match rest1 with
        | b2 :: rest2 =>
          if isCont b2 then
            match rest2 with
            | b3 :: _ =>
              if isCont b3 then
                (some ((b0 - 0xF0) * 0x40000 + (b1 - 0x80) * 0x1000 +
                       (b2 - 0x80) * 0x40 + (b3 - 0x80)), 3)
              else (none, 2)
            | [] => (none, 2)
          else (none, 1)
        | [] => (none, 1)
      else (none, 0)
    | [] => (none, 0)
  else (none, 0)

/-- Lossy UTF-8 decoding (`String::from_utf8_lossy` composed with reading
the scalar values of the resulting string): each malformed maximal
subpart becomes one `U+FFFD` replacement character. -/
def utf8DecodeLossyAux : Nat → List Nat → List Nat
  | _, [] => []
  | 0, _ :: _ => []
  | fuel + 1, b :: rest =>
    ((utf8Step1 b rest).1.getD 0xFFFD) ::
      utf8DecodeLossyAux fuel (rest.drop (utf8Step1 b rest).2)

/-- Lossy UTF-8 decoding entry point: the fuel equals the byte count,
which suffices because each step consumes at least one byte. -/
def utf8DecodeLossy (bs : List Nat) : List Nat :=
  utf8DecodeLossyAux bs.length bs

/-- Strict UTF-8 decoding (`std::str::from_utf8` composed with reading the
scalar values): `none` exactly when the bytes are not well-formed UTF-8. -/
def utf8DecodeAux : Nat → List Nat → Option (List Nat)
  | _, [] => some []
  | 0, _ :: _ => none
  | fuel + 1, b :: rest =>
    match utf8Step1 b rest with
    | (some c, k) => (utf8DecodeAux fuel (rest.drop k)).map (fun cs => c :: cs)
    | (none, _) => none

/-- Strict UTF-8 decoding entry point: the fuel equals the byte count,
which suffices because each step consumes at least one byte. -/
def utf8Decode (bs : List Nat) : Option (List Nat) :=
  utf8DecodeAux bs.length bs

/-- A Unicode scalar value: below `0x110000` and not a surrogate. -/
def isScalar (c : Nat) : Bool :=
  c < 0x110000 && !(0xD800 ≤ c && c ≤ 0xDFFF)

theorem utf8Step1_scalar (b0 : Nat) (rest : List Nat) (c k : Nat)
    (h : utf8Step1 b0 rest = (some c, k)) : isScalar c = true := by
  simp only [utf8Step1, utf8Valid3Second, utf8Valid4Second, isCont] at h
  repeat' split at h
  all_goals simp_all [isScalar]
  all_goals omega

theorem utf8DecodeLossyAux_scalar :
    ∀ (fuel : Nat) (bs : List Nat), ∀ c ∈ utf8DecodeLossyAux fuel bs, isScalar c = true := by
  intro fuel
  induction fuel with
  | zero => intro bs c hc; cases bs <;> simp [utf8DecodeLossyAux] at hc
  | succ n ih =>
    intro bs c hc
    cases bs with
    | nil => simp [utf8DecodeLossyAux] at hc
    | cons b rest =>
      simp only [utf8DecodeLossyAux, List.mem_cons] at hc
      rcases hc with hc | hc
      · subst hc
        cases hopt : (utf8Step1 b rest).1 with
        | none => simp only [hopt, Option.getD_none]; decide
        | some v =>
          simp only [hopt, Option.getD_some]
          exact utf8Step1_scalar b rest v (utf8Step1 b rest).2 (by rw [← hopt])
      · exact ih _ c hc

theorem utf8DecodeLossy_scalar :
    ∀ bs : List Nat, ∀ c ∈ utf8DecodeLossy bs, isScalar c = true := by
  intro bs c hc
  exact utf8DecodeLossyAux_scalar bs.length bs c hc

/-- The error taxonomy (`OpenCCError` in `src/lib.rs`); diagnostic messages
are carried as decoded scalar-value lists. -/
inductive OpenCCError where
  | invalidConfigPath
  | newInstanceFailed (msg : List Nat)
  | inputContainsNull
  | conversionFailed (msg : List Nat)
  | invalidUtf8
deriving DecidableEq

/-- `usize::MAX` on the 64-bit targets this crate builds for; the buffered
native convert returns it to signal failure. -/
def USIZE_MAX : Nat := 2 ^ 64 - 1

/-- Oracle for the native OpenCC C library: one arbitrary but fixed
assignment of results to the foreign calls declared in `src/lib.rs`.
Pointers are `Int` with `0` for null and `-1` for the failure sentinel;
`deref p` gives the bytes stored at a non-null pointer returned by
`opencc_convert_utf8`, and `opencc_convert_utf8_to_buffer` is split into
the returned size and the bytes it wrote into the caller's buffer. -/
structure Native where
  opencc_open : List Nat → Int
  opencc_convert_utf8 : Int → List Nat → Int
  deref : Int → List Nat
  opencc_convert_utf8_to_buffer_size : Int → List Nat → Nat
  opencc_convert_utf8_to_buffer_bytes : Int → List Nat → List Nat
  opencc_error : Option (List Nat)

/-- The error-message fetch the wrapper performs at each failure site:
`opencc_error()`, falling back to a fixed string when it is null,
otherwise `CStr::from_ptr(..).to_string_lossy()`. -/
def lastErrorMessage (o : Native) (fallback : String) : List Nat :=
  match o.opencc_error with
  | none => strCodes fallback
  | some bs => utf8DecodeLossy (cstrBytes bs)

/-- `OpenCC::new` (src/lib.rs lines 225-254).  The config path is `none`
when the OS path is not representable as UTF-8 (`Path::to_str` fails),
otherwise `some bytes` of its UTF-8 form; `CString::new` then rejects
embedded NUL bytes.  On success the stored handle pointer is returned. -/
def newOpenCC (o : Native) (config_file_path : Option (List Nat)) :
    Except OpenCCError Int :=
  match config_file_path with
  | none => .error .invalidConfigPath
  | some path_str =>
    if (0 : Nat) ∈ path_str then .error .invalidConfigPath
    else
      let opencc_ptr := o.opencc_open path_str
      if opencc_ptr = 0 ∨ opencc_ptr = -1 then
        .error (.newInstanceFailed
          (lastErrorMessage o "Unknown error from OpenCC library"))
      else .ok opencc_ptr

/-- Native calls the wrapper performs on library-allocated buffers, in
program order; used to state the free-exactly-once discipline. -/
inductive NativeEvent where
  | convertCall (p : Int)
  | freeCall (p : Int)
deriving DecidableEq

/-- `OpenCC::convert` (src/lib.rs lines 257-299), with the trace of
`opencc_convert_utf8` / `opencc_convert_utf8_free` calls it performs.
`handle` is the pointer stored in the `Mutex`. -/
def convert (o : Native) (handle : Int) (input : List Nat) :
    Except OpenCCError (List Nat) × List NativeEvent :=
  if (0 : Nat) ∈ input then (.error .inputContainsNull, [])
  else if handle = 0 then
    (.error (.newInstanceFailed
      (strCodes "OpenCC instance is not valid or has been closed.")), [])
  else
    let result_ptr := o.opencc_convert_utf8 handle input
    if result_ptr = 0 then
      (.error (.conversionFailed
        (lastErrorMessage o "Unknown conversion error from OpenCC library")),
       [.convertCall result_ptr])
    else
      (.ok (utf8DecodeLossy (cstrBytes (o.deref result_ptr))),
       [.convertCall result_ptr, .freeCall result_ptr])

/-- `OpenCC::convert_append` (src/lib.rs lines 338-392).  The `output`
string is threaded explicitly; the result pairs the final `output` with
the error, if any.  The bytes the wrapper observes after `set_len(size)`
are the first `size` bytes the native call wrote into the buffer. -/
def convert_append (o : Native) (handle : Int) (input : List Nat)
    (output : List Nat) : List Nat × Option OpenCCError :=
  if (0 : Nat) ∈ input then (output, some .inputContainsNull)
  else if handle = 0 then
    (output, some (.newInstanceFailed (strCodes "OpenCC instance is not valid.")))
  else
    let size := o.opencc_convert_utf8_to_buffer_size handle input
    if size = USIZE_MAX then
      (output, some (.conversionFailed
        (lastErrorMessage o "Unknown conversion error")))
    else if size > 0 then
      match utf8Decode ((o.opencc_convert_utf8_to_buffer_bytes handle input).take size) with
      | none => (output, some .invalidUtf8)
      | some cs => (output ++ cs, none)
    else (output, none)

/-- Claim C1: whenever the native convert returns a non-null pointer, the
wrapper calls the native free operation on that pointer exactly once
before returning; the full native-call trace is the convert call followed
by the free call, on every exit path of the embedded control flow. -/
theorem convert_frees_exactly_once (o : Native) (h : Int) (input : List Nat)
    (p : Int) (hnul : (0 : Nat) ∉ input) (hh : h ≠ 0)
    (hp : o.opencc_convert_utf8 h input = p) (hpnn : p ≠ 0) :
    (convert o h input).2 = [.convertCall p, .freeCall p] ∧
    (convert o h input).2.count (.freeCall p) = 1 := by
  simp only [convert, if_neg hnul, if_neg hh, hp, if_neg hpnn]
  simp [List.count_cons]

/-- A witness oracle on which every native call succeeds. -/
def oracleOk : Native where
  opencc_open := fun _ => 7
  opencc_convert_utf8 := fun _ _ => 7
  deref := fun _ => [104, 105, 0, 99]
  opencc_convert_utf8_to_buffer_size := fun _ _ => 2
  opencc_convert_utf8_to_buffer_bytes := fun _ _ => [104, 105]
  opencc_error := none

/-- A witness oracle on which every native call fails. -/
def oracleFail : Native where
  opencc_open := fun _ => 0
  opencc_convert_utf8 := fun _ _ => 0
  deref := fun _ => []
  opencc_convert_utf8_to_buffer_size := fun _ _ => USIZE_MAX
  opencc_convert_utf8_to_buffer_bytes := fun _ _ => []
  opencc_error := some [120]

theorem convert_frees_exactly_once_witness :
    (convert oracleOk 7 [97]).2 = [.convertCall 7, .freeCall 7] ∧
    (convert oracleOk 7 [97]).2.count (.freeCall 7) = 1 :=
  convert_frees_exactly_once oracleOk 7 [97] 7 (by decide) (by decide) rfl (by decide)

/-- Claim C2: `new` fails with `InvalidConfigPath` exactly when the path is
not UTF-8-representable or contains an embedded NUL; otherwise it fails
with `NewInstanceFailed` exactly when the native open returns null or the
`-1` sentinel, with the native diagnostic (or the fixed fallback) as
message; on success the stored pointer is the native result, non-null and
distinct from `-1`. -/
theorem new_error_classification (o : Native) (path : Option (List Nat)) :
    (newOpenCC o path = .error .invalidConfigPath ↔
      path = none ∨ ∃ bs, path = some bs ∧ (0 : Nat) ∈ bs) ∧
    (∀ bs, path = some bs → (0 : Nat) ∉ bs →
      ((∃ m, newOpenCC o path = .error (.newInstanceFailed m)) ↔
        o.opencc_open bs = 0 ∨ o.opencc_open bs = -1) ∧
      (∀ m, newOpenCC o path = .error (.newInstanceFailed m) →
        m = lastErrorMessage o "Unknown error from OpenCC library")) ∧
    (∀ bs p, path = some bs → newOpenCC o path = .ok p →
      p = o.opencc_open bs ∧ p ≠ 0 ∧ p ≠ -1) := by
  refine ⟨?_, ?_, ?_⟩
  · cases path with
    | none => simp [newOpenCC]
    | some bs =>
      by_cases hb : (0 : Nat) ∈ bs
      · simp [newOpenCC, hb]
      · by_cases hp : o.opencc_open bs = 0 ∨ o.opencc_open bs = -1
        · simp [newOpenCC, hb, hp]
        · simp [newOpenCC, hb, hp]
  · intro bs hbs hb
    subst hbs
    by_cases hp : o.opencc_open bs = 0 ∨ o.opencc_open bs = -1
    · constructor
      · simp [newOpenCC, hb, hp]
      · intro m hm
        simp only [newOpenCC, if_neg hb, if_pos hp, Except.error.injEq,
          OpenCCError.newInstanceFailed.injEq] at hm
        exact hm.symm
    · constructor
      · simp [newOpenCC, hb, hp]
      · intro m hm
        simp [newOpenCC, hb, hp] at hm
  · intro bs p hbs hok
    subst hbs
    by_cases hb : (0 : Nat) ∈ bs
    · simp [newOpenCC, hb] at hok
    · by_cases hp : o.opencc_open bs = 0 ∨ o.opencc_open bs = -1
      · simp [newOpenCC, hb, hp] at hok
      · simp only [newOpenCC, if_neg hb, if_neg hp, Except.ok.injEq] at hok
        push_neg at hp
        exact ⟨hok.symm, hok ▸ hp.1, hok ▸ hp.2⟩

theorem new_error_classification_witness :
    (7 : Int) = oracleOk.opencc_open [97] ∧ (7 : Int) ≠ 0 ∧ (7 : Int) ≠ -1 :=
  (new_error_classification oracleOk (some [97])).2.2 [97] 7 rfl rfl

/-- Claim C3: on a constructed handle and NUL-free input, `convert` fails
with `ConversionFailed` exactly when the native convert returns null, and
`convert_append` fails with `ConversionFailed` exactly when the buffered
native convert returns `usize::MAX`; the message is the native diagnostic
or the respective fallback. -/
theorem conversion_failure_signals (o : Native) (h : Int)
    (input output : List Nat) (hnul : (0 : Nat) ∉ input) (hh : h ≠ 0) :
    ((∃ m, (convert o h input).1 = .error (.conversionFailed m)) ↔
      o.opencc_convert_utf8 h input = 0) ∧
    (∀ m, (convert o h input).1 = .error (.conversionFailed m) →
      m = lastErrorMessage o "Unknown conversion error from OpenCC library") ∧
    ((∃ m, (convert_append o h input output).2 = some (.conversionFailed m)) ↔
      o.opencc_convert_utf8_to_buffer_size h input = USIZE_MAX) ∧
    (∀ m, (convert_append o h input output).2 = some (.conversionFailed m) →
      m = lastErrorMessage o "Unknown conversion error") := by
  refine ⟨?_, ?_, ?_, ?_⟩
  · by_cases hz : o.opencc_convert_utf8 h input = 0
    · simp [convert, hnul, hh, hz]
    · simp [convert, hnul, hh, hz]
  · intro m hm
    by_cases hz : o.opencc_convert_utf8 h input = 0
    · simp only [convert, if_neg hnul, if_neg hh, if_pos hz, Except.error.injEq,
        OpenCCError.conversionFailed.injEq] at hm
      exact hm.symm
    · simp [convert, hnul, hh, hz] at hm
  · by_cases hs : o.opencc_convert_utf8_to_buffer_size h input = USIZE_MAX
    · simp [convert_append, hnul, hh, hs]
    · by_cases hz : o.opencc_convert_utf8_to_buffer_size h input > 0
      · simp only [convert_append, if_neg hnul, if_neg hh, if_neg hs, if_pos hz]
        constructor
        · intro hex
          rcases hex with ⟨m, hm⟩
          split at hm <;> simp_all
        · intro hcontra; exact absurd hcontra hs
      · simp [convert_append, hnul, hh, hs, hz]
  · intro m hm
    by_cases hs : o.opencc_convert_utf8_to_buffer_size h input = USIZE_MAX
    · simp only [convert_append, if_neg hnul, if_neg hh, if_pos hs,
        Option.some.injEq, OpenCCError.conversionFailed.injEq] at hm
      exact hm.symm
    · by_cases hz : o.opencc_convert_utf8_to_buffer_size h input > 0
      · simp only [convert_append, if_neg hnul, if_neg hh, if_neg hs, if_pos hz] at hm
        split at hm <;> simp_all
      · simp [convert_append, hnul, hh, hs, hz] at hm

theorem conversion_failure_signals_witness :
    (∃ m, (convert oracleFail 3 [97]).1 = .error (.conversionFailed m)) ∧
    (∃ m, (convert_append oracleFail 3 [97] []).2 = some (.conversionFailed m)) :=
  ⟨(conversion_failure_signals oracleFail 3 [97] [] (by decide) (by decide)).1.mpr rfl,
   (conversion_failure_signals oracleFail 3 [97] [] (by decide) (by decide)).2.2.1.mpr rfl⟩

/-- Claim C4: on native success, `convert` returns the lossy UTF-8 decoding
of the returned NUL-terminated bytes, never fails with `InvalidUtf8`, and
its Ok result consists of Unicode scalar values only; `convert_append`
validates strictly, failing with `InvalidUtf8` exactly when the written
bytes are not well-formed UTF-8, and a returned size of zero appends
nothing and is not an error. -/
theorem convert_decoding (o : Native) (h : Int) (input output : List Nat)
    (hnul : (0 : Nat) ∉ input) (hh : h ≠ 0) :
    (∀ p, o.opencc_convert_utf8 h input = p → p ≠ 0 →
      (convert o h input).1 = .ok (utf8DecodeLossy (cstrBytes (o.deref p)))) ∧
    (∀ (o2 : Native) (h2 : Int) (in2 : List Nat),
      (convert o2 h2 in2).1 ≠ .error .invalidUtf8) ∧
    (∀ cs, (convert o h input).1 = .ok cs → ∀ c ∈ cs, isScalar c = true) ∧
    (o.opencc_convert_utf8_to_buffer_size h input ≠ USIZE_MAX →
      (((convert_append o h input output).2 = some .invalidUtf8 ↔
        utf8Decode ((o.opencc_convert_utf8_to_buffer_bytes h input).take
          (o.opencc_convert_utf8_to_buffer_size h input)) = none) ∧
       (o.opencc_convert_utf8_to_buffer_size h input = 0 →
        convert_append o h input output = (output, none)))) := by
  refine ⟨?_, ?_, ?_, ?_⟩
  · intro p hp hpnn
    simp [convert, hnul, hh, hp, hpnn]
  · intro o2 h2 in2
    by_cases hn2 : (0 : Nat) ∈ in2
    · simp [convert, hn2]
    · by_cases hh2 : h2 = 0
      · simp [convert, hn2, hh2]
      · by_cases hz2 : o2.opencc_convert_utf8 h2 in2 = 0
        · simp [convert, hn2, hh2, hz2]
        · simp [convert, hn2, hh2, hz2]
  · intro cs hcs
    by_cases hz : o.opencc_convert_utf8 h input = 0
    · simp [convert, hnul, hh, hz] at hcs
    · simp only [convert, if_neg hnul, if_neg hh, if_neg hz, Except.ok.injEq] at hcs
      subst hcs
      exact utf8DecodeLossy_scalar _
  · intro hs
    by_cases hz : o.opencc_convert_utf8_to_buffer_size h input > 0
    · constructor
      · simp only [convert_append, if_neg hnul, if_neg hh, if_neg hs, if_pos hz]
        constructor
        · intro hm
          split at hm <;> simp_all
        · intro hnone
          split <;> simp_all
      · intro h0; omega
    · have h0 : o.opencc_convert_utf8_to_buffer_size h input = 0 := by omega
      constructor
      · have hne : ¬ (0 = USIZE_MAX) := by decide
        simp [convert_append, hnul, hh, hs, hz, h0, hne, utf8Decode, utf8DecodeAux]
      · intro _
        simp [convert_append, hnul, hh, hs, hz]

theorem convert_decoding_witness :
    (convert oracleOk 7 [97]).1 = .ok [104, 105] := by
  have h := (convert_decoding oracleOk 7 [97] [] (by decide) (by decide)).1 7 rfl (by decide)
  rw [h]
  have he : utf8DecodeLossy (cstrBytes (oracleOk.deref 7)) = [104, 105] := by decide
  rw [he]

/-- Claim C7: both conversion operations fail with `InputContainsNull`
exactly when the input contains an embedded NUL byte; NUL-free input never
produces that error. -/
theorem input_contains_null_iff (o : Native) (h : Int) (input output : List Nat) :
    ((convert o h input).1 = .error .inputContainsNull ↔ (0 : Nat) ∈ input) ∧
    ((convert_append o h input output).2 = some .inputContainsNull ↔ (0 : Nat) ∈ input) := by
  by_cases hn : (0 : Nat) ∈ input
  · constructor <;> simp [convert, convert_append, hn]
  · constructor
    · by_cases hh : h = 0
      · simp [convert, hn, hh]
      · by_cases hz : o.opencc_convert_utf8 h input = 0
        · simp [convert, hn, hh, hz]
        · simp [convert, hn, hh, hz]
    · by_cases hh : h = 0
      · simp [convert_append, hn, hh]
      · by_cases hs : o.opencc_convert_utf8_to_buffer_size h input = USIZE_MAX
        · simp [convert_append, hn, hh, hs]
        · by_cases hz : o.opencc_convert_utf8_to_buffer_size h input > 0
          · simp only [convert_append, if_neg hn, if_neg hh, if_neg hs, if_pos hz]
            constructor
            · intro hm
              split at hm <;> simp_all
            · intro hcontra; exact absurd hcontra hn
          · simp [convert_append, hn, hh, hs, hz]

/-- Claim C10: `convert_append` is atomic with respect to its output
argument: whenever it returns an error, the output string is unchanged. -/
theorem convert_append_atomic (o : Native) (h : Int) (input output : List Nat)
    (e : OpenCCError) (he : (convert_append o h input output).2 = some e) :
    (convert_append o h input output).1 = output := by
  by_cases hn : (0 : Nat) ∈ input
  · simp [convert_append, hn]
  · by_cases hh : h = 0
    · simp [convert_append, hn, hh]
    · by_cases hs : o.opencc_convert_utf8_to_buffer_size h input = USIZE_MAX
      · simp [convert_append, hn, hh, hs]
      · by_cases hz : o.opencc_convert_utf8_to_buffer_size h input > 0
        · simp only [convert_append, if_neg hn, if_neg hh, if_neg hs, if_pos hz] at he ⊢
          split at he <;> simp_all
        · simp [convert_append, hn, hh, hs, hz] at he

theorem convert_append_atomic_witness :
    (convert_append oracleOk 7 [0] [55]).1 = [55] :=
  convert_append_atomic oracleOk 7 [0] [55] .inputContainsNull rfl

/-- The closed enumeration of the 14 built-in configs (`DefaultConfig`). -/
inductive DefaultConfig where
  | HK2S
  | HK2T
  | JP2T
  | S2T
  | S2TW
  | S2TWP
  | T2HK
  | T2JP
  | T2TW
  | T2S
  | S2HK
  | TW2S
  | TW2SP
  | TW2T
deriving DecidableEq, Fintype

/-- `DefaultConfig::get_file_name` (src/lib.rs lines 155-172). -/
def DefaultConfig.get_file_name : DefaultConfig → String
  | .HK2S => "hk2s.json"
  | .HK2T => "hk2t.json"
  | .JP2T => "jp2t.json"
  | .S2HK => "s2hk.json"
  | .S2T => "s2t.json"
  | .S2TW => "s2tw.json"
  | .S2TWP => "s2twp.json"
  | .T2HK => "t2hk.json"
  | .T2JP => "t2jp.json"
  | .T2S => "t2s.json"
  | .T2TW => "t2tw.json"
  | .TW2S => "tw2s.json"
  | .TW2SP => "tw2sp.json"
  | .TW2T => "tw2t.json"

/-- A filesystem path value (`std::path::Path`), as produced by
`Path::new` on a string. -/
structure FsPath where
  repr : String
deriving DecidableEq

/-- `impl AsRef<Path> for DefaultConfig` (src/lib.rs lines 175-179). -/
def DefaultConfig.asRefPath (c : DefaultConfig) : FsPath :=
  ⟨c.get_file_name⟩

/-- `impl AsRef<str> for DefaultConfig` (src/lib.rs lines 181-185). -/
def DefaultConfig.asRefStr (c : DefaultConfig) : String :=
  c.get_file_name

/-- Claim C9: `get_file_name` is total on the 14 variants, injective, maps
each variant to its canonical lowercase filename per the spec table, and
the `AsRef` conversions to a string view and to a relative path both
return exactly that filename. -/
theorem get_file_name_spec :
    (∀ a b : DefaultConfig, a.get_file_name = b.get_file_name → a = b) ∧
    (DefaultConfig.HK2S.get_file_name = "hk2s.json" ∧
     DefaultConfig.HK2T.get_file_name = "hk2t.json" ∧
     DefaultConfig.JP2T.get_file_name = "jp2t.json" ∧
     DefaultConfig.S2HK.get_file_name = "s2hk.json" ∧
     DefaultConfig.S2T.get_file_name = "s2t.json" ∧
     DefaultConfig.S2TW.get_file_name = "s2tw.json" ∧
     DefaultConfig.S2TWP.get_file_name = "s2twp.json" ∧
     DefaultConfig.T2HK.get_file_name = "t2hk.json" ∧
     DefaultConfig.T2JP.get_file_name = "t2jp.json" ∧
     DefaultConfig.T2S.get_file_name = "t2s.json" ∧
     DefaultConfig.T2TW.get_file_name = "t2tw.json" ∧
     DefaultConfig.TW2S.get_file_name = "tw2s.json" ∧
     DefaultConfig.TW2SP.get_file_name = "tw2sp.json" ∧
     DefaultConfig.TW2T.get_file_name = "tw2t.json") ∧
    (∀ c : DefaultConfig,
      c.asRefStr = c.get_file_name ∧ c.asRefPath = ⟨c.get_file_name⟩) := by
  refine ⟨?_, by decide, ?_⟩
  · intro a b
    cases a <;> cases b <;> decide
  · intro c
    exact ⟨rfl, rfl⟩

theorem get_file_name_spec_witness :
    DefaultConfig.TW2SP = DefaultConfig.TW2SP :=
  get_file_name_spec.1 DefaultConfig.TW2SP DefaultConfig.TW2SP rfl

/-- An embedded dictionary entry
(`struct StaticDictionary(&'static str, &'static [u8])`): the canonical
on-disk filename and the blob, represented by an abstract blob id standing
for the `include_bytes!` contents. -/
structure StaticDictionary where
  name : String
  blob : Nat
deriving DecidableEq

/-- `struct StaticDictionaryData` (src/lib.rs lines 584-616). -/
structure StaticDictionaryData where
  hk2s_json : StaticDictionary
  hk2t_json : StaticDictionary
  hk_variants_ocd : StaticDictionary
  hk_variants_rev_ocd : StaticDictionary
  hk_variants_rev_phrases_ocd : StaticDictionary
  jp2t_json : StaticDictionary
  jp_shinjitai_characters_ocd : StaticDictionary
  jp_shinjitai_phrases_ocd : StaticDictionary
  jp_variants_ocd : StaticDictionary
  jp_variants_rev_ocd : StaticDictionary
  s2hk_json : StaticDictionary
  s2t_json : StaticDictionary
  s2tw_json : StaticDictionary
  s2twp_json : StaticDictionary
  st_characters_ocd : StaticDictionary
  st_phrases_ocd : StaticDictionary
  t2hk_json : StaticDictionary
  t2jp_json : StaticDictionary
  t2s_json : StaticDictionary
  t2tw_json : StaticDictionary
  ts_characters_ocd : StaticDictionary
  ts_phrases_ocd : StaticDictionary
  tw2s_json : StaticDictionary
  tw2sp_json : StaticDictionary
  tw2t_json : StaticDictionary
  tw_phrases_ocd : StaticDictionary
  tw_phrases_rev_ocd : StaticDictionary
  tw_variants_ocd : StaticDictionary
  tw_variants_rev_ocd : StaticDictionary
  tw_variants_rev_phrases_ocd : StaticDictionary

/-- `static DICTIONARIES` (src/lib.rs lines 413-582): the 30 embedded
blobs, each keyed by its canonical on-disk name; blob ids are distinct
abstract stand-ins for the embedded byte contents. -/
def DICTIONARIES : StaticDictionaryData where
  hk2s_json := ⟨"hk2s.json", 0⟩
  hk2t_json := ⟨"hk2t.json", 1⟩
  hk_variants_ocd := ⟨"HKVariants.ocd2", 2⟩
  hk_variants_rev_ocd := ⟨"HKVariantsRev.ocd2", 3⟩
  hk_variants_rev_phrases_ocd := ⟨"HKVariantsRevPhrases.ocd2", 4⟩
  jp2t_json := ⟨"jp2t.json", 5⟩
  jp_shinjitai_characters_ocd := ⟨"JPShinjitaiCharacters.ocd2", 6⟩
  jp_shinjitai_phrases_ocd := ⟨"JPShinjitaiPhrases.ocd2", 7⟩
  jp_variants_ocd := ⟨"JPVariants.ocd2", 8⟩
  jp_variants_rev_ocd := ⟨"JPVariantsRev.ocd2", 9⟩
  s2hk_json := ⟨"s2hk.json", 10⟩
  s2t_json := ⟨"s2t.json", 11⟩
  s2tw_json := ⟨"s2tw.json", 12⟩
  s2twp_json := ⟨"s2twp.json", 13⟩
  st_characters_ocd := ⟨"STCharacters.ocd2", 14⟩
  st_phrases_ocd := ⟨"STPhrases.ocd2", 15⟩
  t2hk_json := ⟨"t2hk.json", 16⟩
  t2jp_json := ⟨"t2jp.json", 17⟩
  t2s_json := ⟨"t2s.json", 18⟩
  t2tw_json := ⟨"t2tw.json", 19⟩
  ts_characters_ocd := ⟨"TSCharacters.ocd2", 20⟩
  ts_phrases_ocd := ⟨"TSPhrases.ocd2", 21⟩
  tw2s_json := ⟨"tw2s.json", 22⟩
  tw2sp_json := ⟨"tw2sp.json", 23⟩
  tw2t_json := ⟨"tw2t.json", 24⟩
  tw_phrases_ocd := ⟨"TWPhrases.ocd2", 25⟩
  tw_phrases_rev_ocd := ⟨"TWPhrasesRev.ocd2", 26⟩
  tw_variants_ocd := ⟨"TWVariants.ocd2", 27⟩
  tw_variants_rev_ocd := ⟨"TWVariantsRev.ocd2", 28⟩
  tw_variants_rev_phrases_ocd := ⟨"TWVariantsRevPhrases.ocd2", 29⟩

/-- The registry viewed as a list, in the declaration order of
`StaticDictionaryData`. -/
def DICTIONARIES_entries : List StaticDictionary :=
  [DICTIONARIES.hk2s_json, DICTIONARIES.hk2t_json, DICTIONARIES.hk_variants_ocd,
   DICTIONARIES.hk_variants_rev_ocd, DICTIONARIES.hk_variants_rev_phrases_ocd,
   DICTIONARIES.jp2t_json, DICTIONARIES.jp_shinjitai_characters_ocd,
   DICTIONARIES.jp_shinjitai_phrases_ocd, DICTIONARIES.jp_variants_ocd,
   DICTIONARIES.jp_variants_rev_ocd, DICTIONARIES.s2hk_json, DICTIONARIES.s2t_json,
   DICTIONARIES.s2tw_json, DICTIONARIES.s2twp_json, DICTIONARIES.st_characters_ocd,
   DICTIONARIES.st_phrases_ocd, DICTIONARIES.t2hk_json, DICTIONARIES.t2jp_json,
   DICTIONARIES.t2s_json, DICTIONARIES.t2tw_json, DICTIONARIES.ts_characters_ocd,
   DICTIONARIES.ts_phrases_ocd, DICTIONARIES.tw2s_json, DICTIONARIES.tw2sp_json,
   DICTIONARIES.tw2t_json, DICTIONARIES.tw_phrases_ocd, DICTIONARIES.tw_phrases_rev_ocd,
   DICTIONARIES.tw_variants_ocd, DICTIONARIES.tw_variants_rev_ocd,
   DICTIONARIES.tw_variants_rev_phrases_ocd]

/-- `static CONFIG_MAP` (src/lib.rs lines 619-634): for each config JSON
filename, the ordered list of embedded entries to materialize. -/
def CONFIG_MAP : List (String × List StaticDictionary) :=
  [("hk2s.json", [DICTIONARIES.hk2s_json, DICTIONARIES.ts_phrases_ocd,
      DICTIONARIES.hk_variants_rev_phrases_ocd, DICTIONARIES.hk_variants_rev_ocd,
      DICTIONARIES.ts_characters_ocd]),
   ("hk2t.json", [DICTIONARIES.hk2t_json, DICTIONARIES.hk_variants_rev_phrases_ocd,
      DICTIONARIES.hk_variants_rev_ocd]),
   ("jp2t.json", [DICTIONARIES.jp2t_json, DICTIONARIES.jp_shinjitai_phrases_ocd,
      DICTIONARIES.jp_shinjitai_characters_ocd, DICTIONARIES.jp_variants_rev_ocd]),
   ("s2hk.json", [DICTIONARIES.s2hk_json, DICTIONARIES.st_phrases_ocd,
      DICTIONARIES.st_characters_ocd, DICTIONARIES.hk_variants_ocd]),
   ("s2t.json", [DICTIONARIES.s2t_json, DICTIONARIES.st_phrases_ocd,
      DICTIONARIES.st_characters_ocd]),
   ("s2tw.json", [DICTIONARIES.s2tw_json, DICTIONARIES.st_phrases_ocd,
      DICTIONARIES.st_characters_ocd, DICTIONARIES.tw_variants_ocd]),
   ("s2twp.json", [DICTIONARIES.s2twp_json, DICTIONARIES.st_phrases_ocd,
      DICTIONARIES.st_characters_ocd, DICTIONARIES.tw_phrases_ocd,
      DICTIONARIES.tw_variants_ocd]),
   ("t2hk.json", [DICTIONARIES.t2hk_json, DICTIONARIES.hk_variants_ocd]),
   ("t2jp.json", [DICTIONARIES.t2jp_json, DICTIONARIES.jp_variants_ocd]),
   ("t2s.json", [DICTIONARIES.t2s_json, DICTIONARIES.ts_phrases_ocd,
      DICTIONARIES.ts_characters_ocd]),
   ("t2tw.json", [DICTIONARIES.t2tw_json, DICTIONARIES.tw_variants_ocd]),
   ("tw2s.json", [DICTIONARIES.tw2s_json, DICTIONARIES.ts_phrases_ocd,
      DICTIONARIES.tw_variants_rev_phrases_ocd, DICTIONARIES.tw_variants_rev_ocd,
      DICTIONARIES.ts_characters_ocd]),
   ("tw2sp.json", [DICTIONARIES.tw2sp_json, DICTIONARIES.ts_phrases_ocd,
      DICTIONARIES.tw_phrases_rev_ocd, DICTIONARIES.tw_variants_rev_phrases_ocd,
      DICTIONARIES.tw_variants_rev_ocd, DICTIONARIES.ts_characters_ocd]),
   ("tw2t.json", [DICTIONARIES.tw2t_json, DICTIONARIES.tw_variants_rev_phrases_ocd,
      DICTIONARIES.tw_variants_rev_ocd])]

/-- Modelled from the spec: the manifest table of section 4.4, giving for
each config JSON filename the additional dictionary files beyond the JSON
itself, in order.  Used only to compare the code's `CONFIG_MAP` against
the spec's table. -/
def specManifest : String → List String
  | "hk2s.json" => ["TSPhrases.ocd2", "HKVariantsRevPhrases.ocd2",
      "HKVariantsRev.ocd2", "TSCharacters.ocd2"]
  | "hk2t.json" => ["HKVariantsRevPhrases.ocd2", "HKVariantsRev.ocd2"]
  | "jp2t.json" => ["JPShinjitaiPhrases.ocd2", "JPShinjitaiCharacters.ocd2",
      "JPVariantsRev.ocd2"]
  | "s2hk.json" => ["STPhrases.ocd2", "STCharacters.ocd2", "HKVariants.ocd2"]
  | "s2t.json" => ["STPhrases.ocd2", "STCharacters.ocd2"]
  | "s2tw.json" => ["STPhrases.ocd2", "STCharacters.ocd2", "TWVariants.ocd2"]
  | "s2twp.json" => ["STPhrases.ocd2", "STCharacters.ocd2", "TWPhrases.ocd2",
      "TWVariants.ocd2"]
  | "t2hk.json" => ["HKVariants.ocd2"]
  | "t2jp.json" => ["JPVariants.ocd2"]
  | "t2s.json" => ["TSPhrases.ocd2", "TSCharacters.ocd2"]
  | "t2tw.json" => ["TWVariants.ocd2"]
  | "tw2s.json" => ["TSPhrases.ocd2", "TWVariantsRevPhrases.ocd2",
      "TWVariantsRev.ocd2", "TSCharacters.ocd2"]
  | "tw2sp.json" => ["TSPhrases.ocd2", "TWPhrasesRev.ocd2",
      "TWVariantsRevPhrases.ocd2", "TWVariantsRev.ocd2", "TSCharacters.ocd2"]
  | "tw2t.json" => ["TWVariantsRevPhrases.ocd2", "TWVariantsRev.ocd2"]
  | _ => []

/-- Claim C6: the manifest has exactly the 14 config filenames as keys
(every `get_file_name` value among them), each entry is the config's own
JSON file followed by the spec table's dictionary list, and every
referenced entry occurs exactly once in the 30-entry registry. -/
theorem config_map_spec :
    (CONFIG_MAP.map Prod.fst).length = 14 ∧
    (CONFIG_MAP.map Prod.fst).Nodup ∧
    (∀ c : DefaultConfig, c.get_file_name ∈ CONFIG_MAP.map Prod.fst) ∧
    (∀ e ∈ CONFIG_MAP, e.2.map StaticDictionary.name = e.1 :: specManifest e.1) ∧
    DICTIONARIES_entries.length = 30 ∧
    (∀ e ∈ CONFIG_MAP, ∀ d ∈ e.2,
      (DICTIONARIES_entries.map StaticDictionary.name).count d.name = 1 ∧
      d ∈ DICTIONARIES_entries) := by
  refine ⟨by decide, by decide, by decide, by decide, by decide, by decide⟩

/-- The target-directory state and the flat file map inside it, as seen by
the materializer.  `dirIsDir` is meaningful only when `dirExists` is true;
file contents are the abstract blob ids.  Filesystem I/O never fails in
the model. -/
structure FS where
  dirExists : Bool
  dirIsDir : Bool
  files : List (String × Nat)
deriving DecidableEq

/-- Materializer errors.  The source boxes distinct message strings; one
constructor per failure site keeps the sites distinguishable. -/
inductive MatErr where
  | pathExistsButNotDirectory
  | pathNeedsToBeDirectory
  | unsupportedConfig
deriving DecidableEq

/-- The guarded write in `generate_static_dictionary_inner`
(src/lib.rs lines 646-652): create `dir/filename` with the blob bytes only
when no file exists at that path. -/
def writeIfMissing (files : List (String × Nat)) (d : StaticDictionary) :
    List (String × Nat) :=
  if files.any (fun e => e.1 == d.name) then files
  else files ++ [(d.name, d.blob)]

/-- `generate_static_dictionary_inner` (src/lib.rs lines 637-659). -/
def generate_static_dictionary_inner (fs : FS) (config : DefaultConfig) :
    Except MatErr FS :=
  match CONFIG_MAP.lookup config.get_file_name with
  | some ds => .ok { fs with files := ds.foldl writeIfMissing fs.files }
  | none => .error .unsupportedConfig

/-- Outcome of the target-directory handling preamble shared by the two
public materializer operations. -/
inductive DirAction where
  | fail
  | create
  | proceed
deriving DecidableEq

/-- Directory handling of `generate_static_dictionary`
(src/lib.rs lines 669-679): an existing non-directory path fails, a
missing path is created recursively, an existing directory proceeds. -/
def dirCheckOne (dirExists dirIsDir : Bool) : DirAction :=
  if dirExists then (if !dirIsDir then .fail else .proceed) else .create

/-- Directory handling of `generate_static_dictionaries`
(src/lib.rs lines 692-701): an existing non-directory path fails, a
missing path is created recursively, an existing directory proceeds. -/
def dirCheckMany (dirExists dirIsDir : Bool) : DirAction :=
  if dirExists then (if !dirIsDir then .fail else .proceed) else .create

/-- `generate_static_dictionary` (src/lib.rs lines 663-682). -/
def generate_static_dictionary (fs : FS) (config : DefaultConfig) :
    Except MatErr FS :=
  match dirCheckOne fs.dirExists fs.dirIsDir with
  | .fail => .error .pathExistsButNotDirectory
  | .create =>
    generate_static_dictionary_inner
      { fs with dirExists := true, dirIsDir := true } config
  | .proceed => generate_static_dictionary_inner fs config

/-- `generate_static_dictionaries` (src/lib.rs lines 686-708). -/
def generate_static_dictionaries (fs : FS) (configs : List DefaultConfig) :
    Except MatErr FS :=
  match dirCheckMany fs.dirExists fs.dirIsDir with
  | .fail => .error .pathNeedsToBeDirectory
  | .create =>
    configs.foldlM generate_static_dictionary_inner
      { fs with dirExists := true, dirIsDir := true }
  | .proceed => configs.foldlM generate_static_dictionary_inner fs

/-- Counterexample to claim C5: the directory handling of the two
operations agrees on every target-directory state, refuting the claimed
divergence at each of the four concrete states. -/
theorem dir_handling_no_divergence :
    dirCheckOne true true = dirCheckMany true true ∧
    dirCheckOne true false = dirCheckMany true false ∧
    dirCheckOne false true = dirCheckMany false true ∧
    dirCheckOne false false = dirCheckMany false false := by
  decide

/-- Claim C5 as amended: `generate_static_dictionary` and
`generate_static_dictionaries` handle the target directory identically
(existing non-directory fails, missing is created recursively, existing
directory proceeds), differing only in the error value reported; in
particular a singleton batch succeeds exactly when the single-config
operation does. -/
theorem dir_handling_identical :
    (∀ de di : Bool, dirCheckOne de di = dirCheckMany de di) ∧
    (∀ (fs : FS) (c : DefaultConfig),
      (generate_static_dictionary fs c).isOk =
        (generate_static_dictionaries fs [c]).isOk) := by
  constructor
  · intro de di
    cases de <;> cases di <;> rfl
  · intro fs c
    have h1 : dirCheckMany fs.dirExists fs.dirIsDir =
        dirCheckOne fs.dirExists fs.dirIsDir := by
      cases fs.dirExists <;> cases fs.dirIsDir <;> rfl
    simp only [generate_static_dictionary, generate_static_dictionaries, h1]
    cases hd : dirCheckOne fs.dirExists fs.dirIsDir with
    | fail => rfl
    | create =>
      cases hi : generate_static_dictionary_inner
          { fs with dirExists := true, dirIsDir := true } c with
      | ok fs2 => simp [List.foldlM, hi, Except.isOk, Except.toBool]
      | error e => simp [List.foldlM, hi, Except.isOk, Except.toBool]
    | proceed =>
      cases hi : generate_static_dictionary_inner fs c with
      | ok fs2 => simp [List.foldlM, hi, Except.isOk, Except.toBool]
      | error e => simp [List.foldlM, hi, Except.isOk, Except.toBool]

theorem any_writeIfMissing (files : List (String × Nat)) (d : StaticDictionary)
    (p : String × Nat → Bool) (h : files.any p = true) :
    (writeIfMissing files d).any p = true := by
  unfold writeIfMissing
  split
  · exact h
  · simp [List.any_append, h]

theorem any_foldl_writeIfMissing (ds : List StaticDictionary)
    (files : List (String × Nat)) (p : String × Nat → Bool)
    (h : files.any p = true) : (ds.foldl writeIfMissing files).any p = true := by
  induction ds generalizing files with
  | nil => exact h
  | cons d0 ds ih => exact ih _ (any_writeIfMissing _ _ _ h)

theorem writeIfMissing_self (files : List (String × Nat)) (d : StaticDictionary) :
    (writeIfMissing files d).any (fun e => e.1 == d.name) = true := by
  unfold writeIfMissing
  split
  · assumption
  · simp [List.any_append]

theorem foldl_all_present (ds : List StaticDictionary)
    (files : List (String × Nat)) :
    ∀ d ∈ ds, (ds.foldl writeIfMissing files).any (fun e => e.1 == d.name) = true := by
  induction ds generalizing files with
  | nil => intro d hd; cases hd
  | cons d0 ds ih =>
    intro d hd
    rcases List.mem_cons.mp hd with h | h
    · subst h
      exact any_foldl_writeIfMissing ds _ _ (writeIfMissing_self files d)
    · exact ih _ d h

theorem writeIfMissing_noop (files : List (String × Nat)) (d : StaticDictionary)
    (h : files.any (fun e => e.1 == d.name) = true) :
    writeIfMissing files d = files := by
  unfold writeIfMissing
  simp [h]

theorem foldl_writeIfMissing_noop (ds : List StaticDictionary)
    (files : List (String × Nat))
    (h : ∀ d ∈ ds, files.any (fun e => e.1 == d.name) = true) :
    ds.foldl writeIfMissing files = files := by
  induction ds with
  | nil => rfl
  | cons d0 ds ih =>
    rw [List.foldl_cons, writeIfMissing_noop _ _ (h d0 (List.mem_cons_self _ _))]
    exact ih fun d hd => h d (List.mem_cons_of_mem _ hd)

theorem foldl_writeIfMissing_idem (ds : List StaticDictionary)
    (files : List (String × Nat)) :
    ds.foldl writeIfMissing (ds.foldl writeIfMissing files) =
      ds.foldl writeIfMissing files :=
  foldl_writeIfMissing_noop ds _ (foldl_all_present ds files)

/-- Claim C8: `generate_static_dictionary` is idempotent — a second run on
the state produced by a successful run succeeds and changes nothing,
because existing files are left untouched and only missing files are
written. -/
theorem generate_static_dictionary_idempotent (fs fs2 : FS) (c : DefaultConfig)
    (h : generate_static_dictionary fs c = .ok fs2) :
    generate_static_dictionary fs2 c = .ok fs2 := by
  obtain ⟨ds, hds⟩ : ∃ ds, CONFIG_MAP.lookup c.get_file_name = some ds := by
    cases c <;> exact ⟨_, rfl⟩
  obtain ⟨de, di, fl⟩ := fs
  have hfs2 : fs2 = ⟨true, true, ds.foldl writeIfMissing fl⟩ := by
    cases de with
    | false =>
      have h2 : generate_static_dictionary_inner ⟨true, true, fl⟩ c = .ok fs2 := h
      unfold generate_static_dictionary_inner at h2
      rw [hds] at h2
      exact (Except.ok.inj h2).symm
    | true =>
      cases di with
      | false =>
        have h2 : (Except.error MatErr.pathExistsButNotDirectory : Except MatErr FS) =
            .ok fs2 := h
        exact Except.noConfusion h2
      | true =>
        have h2 : generate_static_dictionary_inner ⟨true, true, fl⟩ c = .ok fs2 := h
        unfold generate_static_dictionary_inner at h2
        rw [hds] at h2
        exact (Except.ok.inj h2).symm
  subst hfs2
  have hgoal : generate_static_dictionary_inner
      ⟨true, true, ds.foldl writeIfMissing fl⟩ c =
      .ok ⟨true, true, ds.foldl writeIfMissing fl⟩ := by
    unfold generate_static_dictionary_inner
    rw [hds]
    dsimp only
    rw [foldl_writeIfMissing_idem]
  exact hgoal

theorem generate_static_dictionary_idempotent_witness :
    generate_static_dictionary
      ⟨true, true, [("tw2sp.json", 23), ("TSPhrases.ocd2", 21),
        ("TWPhrasesRev.ocd2", 26), ("TWVariantsRevPhrases.ocd2", 29),
        ("TWVariantsRev.ocd2", 28), ("TSCharacters.ocd2", 20)]⟩
      DefaultConfig.TW2SP =
    .ok ⟨true, true, [("tw2sp.json", 23), ("TSPhrases.ocd2", 21),
        ("TWPhrasesRev.ocd2", 26), ("TWVariantsRevPhrases.ocd2", 29),
        ("TWVariantsRev.ocd2", 28), ("TSCharacters.ocd2", 20)]⟩ :=
  generate_static_dictionary_idempotent ⟨false, false, []⟩ _
    DefaultConfig.TW2SP rfl

theorem config_map_spec_witness :
    [DICTIONARIES.tw2sp_json, DICTIONARIES.ts_phrases_ocd,
     DICTIONARIES.tw_phrases_rev_ocd, DICTIONARIES.tw_variants_rev_phrases_ocd,
     DICTIONARIES.tw_variants_rev_ocd, DICTIONARIES.ts_characters_ocd].map
        StaticDictionary.name =
      "tw2sp.json" :: specManifest "tw2sp.json" :=
  config_map_spec.2.2.2.1
    ("tw2sp.json", [DICTIONARIES.tw2sp_json, DICTIONARIES.ts_phrases_ocd,
      DICTIONARIES.tw_phrases_rev_ocd, DICTIONARIES.tw_variants_rev_phrases_ocd,
      DICTIONARIES.tw_variants_rev_ocd, DICTIONARIES.ts_characters_ocd])
    (by decide)
